import Mathlib

/-!
Verification of the emby-analytics server core against its specification:
watch-time reconstruction, window parsing, user and catalog synchronisation,
the collector dedup filter, the live publisher fan-out, the lifetime backfill
job and the active-users query.  Every definition below is a shallow
embedding of the corresponding Python function; the doc comment of each
definition names the source file and symbol it embeds.
-/

namespace EmbyAnalytics

/- ------------------------------------------------------------------ -/
/- Watch-time reconstruction (server/routers/stats.py: stats_usage,
   top_users, top_items).                                             -/
/- ------------------------------------------------------------------ -/

/-- Per-tick cap in milliseconds: the local `cap_ms = 5000` shared by
`stats_usage`, `top_users` and `top_items` in `server/routers/stats.py`. -/
def cap_ms : Int := 5000

/-- One ledger row as the reconstruction queries see it: the event timestamp
in milliseconds (the SQL `datetime(event_ts)` values have second granularity,
so in practice these are multiples of 1000) and the nullable `position_ms`
column. -/
structure Obs where
  tsMs : Int
  posMs : Option Int
deriving DecidableEq, Repr

/-- SQL expression `COALESCE(pos - prev_pos, 0)`: subtraction propagates
NULL, and COALESCE then substitutes 0. -/
def rawDelta (ppos pos : Option Int) : Int :=
  match ppos, pos with
  | some a, some b => b - a
  | _, _ => 0

/-- The per-pair delta expression shared verbatim by `stats_usage`,
`top_users` and `top_items` in `server/routers/stats.py`:
`MAX(0, MIN(COALESCE(pos - prev_pos, 0), cap_ms, gap))`, where `gap` is
`CAST((julianday(ts) - julianday(prev_ts)) * 86400000 AS INTEGER)`, the wall
gap in milliseconds between the two events. -/
def d_ms (prev cur : Obs) : Int :=
  max 0 (min (rawDelta prev.posMs cur.posMs) (min cap_ms (cur.tsMs - prev.tsMs)))

/-- Embedding of `LAG(...) OVER (PARTITION BY ... ORDER BY datetime(event_ts))`:
the (previous row, current row) pairs of a partition already ordered by
timestamp.  The first row of a partition has NULL lagged values and is
removed by `WHERE prev_pos IS NOT NULL AND prev_ts IS NOT NULL`, so it
yields no pair. -/
def lagPairs : List Obs → List (Obs × Obs)
  | a :: b :: rest => (a, b) :: lagPairs (b :: rest)
  | _ => []

/-- All deltas one partition contributes to the aggregate queries. -/
def partitionDeltas (p : List Obs) : List Int :=
  (lagPairs p).map fun pc => d_ms pc.1 pc.2

/-- The delta formula exactly as the specification states it:
`delta = max(0, min(rawDelta, PER_TICK_CAP_MS, wallGapMs))` with
`rawDelta = cur.position - prev.position`, `PER_TICK_CAP_MS = 5000` and
`wallGapMs = cur.timestamp - prev.timestamp` in milliseconds. -/
def specDelta (prevPos curPos prevTs curTs : Int) : Int :=
  max 0 (min (curPos - prevPos) (min 5000 (curTs - prevTs)))

/- ------------------------------------------------------------------ -/
/- Directory sync (server/tasks.py: sync_users_from_emby).            -/
/- ------------------------------------------------------------------ -/

/-- The `emby_user` table as an association list id ↦ name; `id` is the
primary key. -/
abbrev UserTable := List (String × String)

/-- SQL `INSERT OR REPLACE INTO emby_user (id, name) VALUES (?, ?)`: replace
the row carrying this primary key if present, otherwise insert a new row. -/
def upsertUser (tbl : UserTable) (id name : String) : UserTable :=
  if tbl.any fun p => p.1 == id then
    tbl.map fun p => if p.1 == id then (id, name) else p
  else tbl ++ [(id, name)]

/-- Embedding of `sync_users_from_emby` in `server/tasks.py`: every upstream
user is upserted into the local table by id.  The function performs no
deletion of any kind. -/
def sync_users_from_emby (loc : UserTable) (upstream : List (String × String)) : UserTable :=
  upstream.foldl (fun t u => upsertUser t u.1 u.2) loc

/- ------------------------------------------------------------------ -/
/- Catalog refresh start requests (server/routers/admin.py).          -/
/- ------------------------------------------------------------------ -/

/-- The shared `_refresh_state` dictionary of `server/routers/admin.py`. -/
structure RefreshState where
  running : Bool
  page : Nat
  imported : Nat
  total : Nat
  error : Option String
deriving DecidableEq, Repr

/-- The JSON bodies the two start endpoints can answer with:
`busy` is `{"started": false, "running": true, "imported": …, "total": …,
"page": …}` and `started` is `{"started": true}` (with `"full": true` for
the full variant). -/
inductive RefreshResponse
  | busy (imported total page : Nat)
  | started (full : Bool)
deriving DecidableEq, Repr

/-- Embedding of `admin_refresh` (`POST /admin/refresh`): when the shared
running flag is set, answer with the current progress and start nothing;
otherwise create a `_refresh_worker` task.  The boolean component records
whether a worker task was created by this request. -/
def admin_refresh (st : RefreshState) : RefreshResponse × Bool :=
  if st.running then (.busy st.imported st.total st.page, false)
  else (.started false, true)

/-- Embedding of `admin_refresh_full` (`POST /admin/refresh/full`): wipe the
`library_item` table and create a `_refresh_worker` task unconditionally —
the handler never consults the running flag.  Components: the wiped catalog,
the response, and whether a worker task was created. -/
def admin_refresh_full (_catalog : List α) (_st : RefreshState) :
    List α × RefreshResponse × Bool :=
  ([], .started true, true)

/- ------------------------------------------------------------------ -/
/- Live publisher (server/routers/now.py: publish_now).               -/
/- ------------------------------------------------------------------ -/

/-- Embedding of `publish_now` in `server/routers/now.py`: each subscriber
queue receives the snapshot only when `qsize() < 10`; a full queue keeps its
contents and the snapshot is dropped for that subscriber alone. -/
def publish_now (snapshot : α) (subs : List (List α)) : List (List α) :=
  subs.map fun q => if q.length < 10 then q ++ [snapshot] else q

/- ------------------------------------------------------------------ -/
/- Quality buckets (server/routers/stats.py: stats_qualities).        -/
/- ------------------------------------------------------------------ -/

/-- Embedding of the bucket CASE expression of `stats_qualities` in
`server/routers/stats.py`: NULL or 0 is Unknown, then the first matching
lower bound of 2160 / 1080 / 720 wins, and everything else is SD. -/
def qualityBucket (video_height : Option Int) : String :=
  match video_height with
  | none => "Unknown"
  | some h =>
    if h = 0 then "Unknown"
    else if 2160 ≤ h then "4K"
    else if 1080 ≤ h then "1080p"
    else if 720 ≤ h then "720p"
    else "SD"

/-- The bucket map exactly as claim C8 states it: null or below 1 is
Unknown, 1–719 SD, 720–1079 720p, 1080–2159 1080p, 2160 and above 4K. -/
def claimBucket (video_height : Option Int) : String :=
  match video_height with
  | none => "Unknown"
  | some h =>
    if h < 1 then "Unknown"
    else if h ≤ 719 then "SD"
    else if h ≤ 1079 then "720p"
    else if h ≤ 2159 then "1080p"
    else "4K"

/-- The bucket map as amended: only NULL and exactly 0 are Unknown; any
other height below 720 — negative heights included — is SD; 720–1079 is
720p, 1080–2159 is 1080p, and 2160 and above is 4K. -/
def amendedBucket (video_height : Option Int) : String :=
  match video_height with
  | none => "Unknown"
  | some h =>
    if h = 0 then "Unknown"
    else if h < 720 then "SD"
    else if h < 1080 then "720p"
    else if h < 2160 then "1080p"
    else "4K"

/- ------------------------------------------------------------------ -/
/- Collector dedup filter (server/tasks.py: collector_loop).          -/
/- ------------------------------------------------------------------ -/

/-- One upstream session as `collector_loop` in `server/tasks.py` reads it:
`UserId`, the id of `NowPlayingItem`, and `PlayState.PositionTicks`, every
field possibly missing. -/
structure Session where
  userId : Option String
  itemId : Option String
  positionTicks : Option Int
deriving DecidableEq, Repr

/-- The position computed by `pos_ms = int(pos_ms / 10000) if pos_ms else
None`: a missing or zero `PositionTicks` yields no position, otherwise ticks
are converted to milliseconds — Python `int()` truncates toward zero, hence
`Int.tdiv`. -/
def sessionPosMs (s : Session) : Option Int :=
  match s.positionTicks with
  | some t => if t = 0 then none else some (Int.tdiv t 10000)
  | none => none

/-- The in-memory `last_positions` dictionary keyed by `(user_id, item_id)`. -/
abbrev DedupCache := List ((String × String) × Int)

/-- Dictionary assignment `last_positions[last_key] = pos_ms`. -/
def cacheStore (c : DedupCache) (k : String × String) (v : Int) : DedupCache :=
  if c.any fun p => p.1 == k then c.map fun p => if p.1 == k then (k, v) else p
  else c ++ [(k, v)]

/-- Dictionary read `last_positions.get(last_key)`. -/
def cacheLookup (c : DedupCache) (k : String × String) : Option Int :=
  (c.find? fun p => p.1 == k).map Prod.snd

/-- Handling of one session within one tick of `collector_loop` in
`server/tasks.py`: the guard `if user_id and item_id and pos_ms is not None`
(Python truthiness — a missing or empty id fails it), then a `play_event`
row is inserted only when `last_positions.get(last_key) != pos_ms`, in which
case the cache is updated first.  Returns the new cache and whether a ledger
row was written for this session. -/
def collectSession (cache : DedupCache) (s : Session) : DedupCache × Bool :=
  match s.userId, s.itemId, sessionPosMs s with
  | some u, some i, some p =>
    if u ≠ "" ∧ i ≠ "" then
      if cacheLookup cache (u, i) ≠ some p then (cacheStore cache (u, i) p, true)
      else (cache, false)
    else (cache, false)
  | _, _, _ => (cache, false)

/- ------------------------------------------------------------------ -/
/- Lifetime backfill (server/tasks.py: backfill_lifetime_watch).      -/
/- ------------------------------------------------------------------ -/

/-- One played item of the upstream history: `RunTimeTicks` and
`UserData.PlayCount`, either possibly missing. -/
structure HistoryItem where
  runTimeTicks : Option Int
  playCount : Option Int
deriving DecidableEq, Repr

/-- Contribution of one item in `backfill_lifetime_watch`
(`server/tasks.py`): `ticks = int(it.get("RunTimeTicks") or 0)` and
`plays = int(((it.get("UserData") or {}).get("PlayCount")) or 1)` — Python
`or` makes both a missing and a zero `PlayCount` count as 1 — and the item
adds `(ticks // 10_000) * plays` only when `ticks > 0 and plays > 0`
(Python `//` floors, hence `Int.fdiv`). -/
def itemWatchMs (it : HistoryItem) : Int :=
  let ticks := it.runTimeTicks.getD 0
  let plays := match it.playCount with
    | some c => if c = 0 then 1 else c
    | none => 1
  if 0 < ticks ∧ 0 < plays then (Int.fdiv ticks 10000) * plays else 0

/-- The `total_ms` accumulated for one user over its played items. -/
def userLifetimeMs (items : List HistoryItem) : Int :=
  (items.map itemWatchMs).sum

/-- One upstream user together with the paginated `IsPlayed=true`
Movie/Episode items the job fetches for it. -/
structure UpstreamUser where
  id : String
  playedItems : List HistoryItem
deriving DecidableEq, Repr

/-- The `lifetime_watch` table as an association list user_id ↦ total_ms. -/
abbrev LifetimeTable := List (String × Int)

/-- SQL `INSERT OR REPLACE INTO lifetime_watch (user_id, total_ms, …)`. -/
def upsertLifetime (tbl : LifetimeTable) (uid : String) (ms : Int) : LifetimeTable :=
  if tbl.any fun p => p.1 == uid then
    tbl.map fun p => if p.1 == uid then (uid, ms) else p
  else tbl ++ [(uid, ms)]

/-- SQL `DELETE FROM lifetime_watch`. -/
def deleteAllLifetime (_tbl : LifetimeTable) : LifetimeTable := []

/-- Embedding of `backfill_lifetime_watch` in `server/tasks.py`: wipe the
whole `lifetime_watch` table, then for every upstream user whose id is
present and non-empty (`if not uid: continue`) insert the freshly computed
total. -/
def backfill_lifetime_watch (old : LifetimeTable) (users : List UpstreamUser) :
    LifetimeTable :=
  users.foldl
    (fun tbl u =>
      if u.id = "" then tbl
      else upsertLifetime tbl u.id (userLifetimeMs u.playedItems))
    (deleteAllLifetime old)

/-- The per-user total exactly as the specification states it: the sum over
all played items of `(runtimeTicks / 10000) * max(playCount, 1)`, a missing
or zero playCount counting as 1 and a missing runtime as 0. -/
def specLifetimeMs (items : List HistoryItem) : Int :=
  (items.map fun it =>
    (Int.fdiv (it.runTimeTicks.getD 0) 10000) * max (it.playCount.getD 1) 1).sum

/- ------------------------------------------------------------------ -/
/- Active users (server/routers/stats.py: _format_active_users,
   _get_active_users).                                                -/
/- ------------------------------------------------------------------ -/

/-- One row of the `_get_active_users` query:
`COALESCE(u.name, lw.user_id)` (a string, possibly empty) and the
`total_ms` column, nullable as far as the Python guard `or 0` cares. -/
structure LifetimeRow where
  user : String
  total_ms : Option Int
deriving DecidableEq, Repr

/-- One formatted entry of the active-users response. -/
structure ActiveUserEntry where
  user : String
  days : Int
  hours : Int
  minutes : Int
deriving DecidableEq, Repr

/-- Per-row formatting of `_format_active_users` in
`server/routers/stats.py`: `ms = int(r["total_ms"] or 0)` broken into whole
days, hours and minutes (Python `//` floors, hence `Int.fdiv`), with a
falsy user name replaced by "Unknown". -/
def formatEntry (r : LifetimeRow) : ActiveUserEntry :=
  let ms := r.total_ms.getD 0
  let mins := Int.fdiv ms 60000
  let days := Int.fdiv mins (60 * 24)
  let mins1 := mins - days * (60 * 24)
  let hours := Int.fdiv mins1 60
  let mins2 := mins1 - hours * 60
  { user := if r.user = "" then "Unknown" else r.user
    days := days, hours := hours, minutes := mins2 }

/-- Embedding of `_format_active_users(rows, limit)`: format every row, then
pad with `{"user": "Unknown", "days": 0, "hours": 0, "minutes": 0}` entries
until the list holds `limit` entries. -/
def _format_active_users (rows : List LifetimeRow) (limit : Nat) :
    List ActiveUserEntry :=
  let out := rows.map formatEntry
  out ++ List.replicate (limit - out.length) ⟨"Unknown", 0, 0, 0⟩

/-- Insertion step of a stable descending sort on `total_ms`, modelling
`ORDER BY lw.total_ms DESC`. -/
def insertDescTotal (r : LifetimeRow) : List LifetimeRow → List LifetimeRow
  | [] => [r]
  | x :: xs =>
    if x.total_ms.getD 0 < r.total_ms.getD 0 then r :: x :: xs
    else x :: insertDescTotal r xs

/-- The `lifetime_watch` rows ordered by `total_ms DESC`. -/
def sortDescTotal (rows : List LifetimeRow) : List LifetimeRow :=
  rows.foldr insertDescTotal []

/-- Embedding of `_get_active_users(limit)` in `server/routers/stats.py`:
take at most `limit` rows of `lifetime_watch` ordered by `total_ms`
descending (`LIMIT ?`), format them and pad to `limit`. -/
def _get_active_users (lifetime : List LifetimeRow) (limit : Nat) :
    List ActiveUserEntry :=
  _format_active_users ((sortDescTotal lifetime).take limit) limit

/- ------------------------------------------------------------------ -/
/- Catalog sync (server/routers/admin.py: _refresh_worker).           -/
/- ------------------------------------------------------------------ -/

/-- One media stream of an upstream payload: the `Type`, `Codec` and
`Height` fields, each possibly missing. -/
structure MediaStream where
  typ : Option String
  codec : Option String
  height : Option Int
deriving DecidableEq, Repr

/-- One upstream catalog item as `_refresh_worker` reads it. -/
structure UpstreamItem where
  id : String
  itemType : Option String
  name : Option String
  dateCreated : Option String
  mediaStreams : List MediaStream
  mediaSources : List (List MediaStream)
deriving DecidableEq, Repr

/-- ASCII lowercasing of a string, modelling the Python `.lower()` calls. -/
def lowerStr (s : String) : String := String.mk (s.data.map Char.toLower)

/-- The stream filter `(st.get("Type") or "").lower() == "video"`. -/
def isVideoStream (st : MediaStream) : Bool :=
  lowerStr (st.typ.getD "") == "video"

/-- A collected candidate: the raw `Height` and the codec computed by
`(st.get("Codec") or "").lower() or None` — a missing or empty codec maps
to None, anything else to its lowercase form. -/
structure Candidate where
  h : Option Int
  codec : Option String
deriving DecidableEq, Repr

/-- Candidate built from one video stream of `_refresh_worker`. -/
def candidateOf (st : MediaStream) : Candidate :=
  { h := st.height
    codec := match st.codec with
      | none => none
      | some c => if c = "" then none else some (lowerStr c) }

/-- Python `max(…, key=lambda c: c["h"], default=None)` over the candidates
whose height is an int greater than 0: the first candidate carrying the
greatest height (Python `max` keeps the earliest among equals). -/
def bestVideo (cands : List Candidate) : Option Candidate :=
  (cands.filter fun c =>
      match c.h with | some v => decide (0 < v) | none => false).foldl
    (fun best c =>
      match best with
      | none => some c
      | some b => if b.h.getD 0 < c.h.getD 0 then some c else some b)
    none

/-- One row of the `library_item` table. -/
structure ItemRow where
  itemType : Option String
  name : Option String
  addedAt : String
  videoCodec : Option String
  videoHeight : Option Int
deriving DecidableEq, Repr

/-- The row `_refresh_worker` derives for one upstream item: the candidates
come from `MediaStreams` followed by the streams of every `MediaSources`
entry, the best video stream supplies codec and height, and `added_at` is
`(i.get("DateCreated") or "")[:19]`. -/
def itemRowOf (i : UpstreamItem) : ItemRow :=
  let best := bestVideo
    (((i.mediaStreams ++ i.mediaSources.flatten).filter isVideoStream).map candidateOf)
  { itemType := i.itemType
    name := i.name
    addedAt := String.mk ((i.dateCreated.getD "").data.take 19)
    videoCodec := match best with | some b => b.codec | none => none
    videoHeight := match best with | some b => b.h | none => none }

/-- The `library_item` table as a keyed map id ↦ row: the primary key makes
duplicate rows impossible by construction. -/
abbrev ItemTable := String → Option ItemRow

/-- SQL `INSERT OR REPLACE INTO library_item …` keyed by the primary key. -/
def upsertItem (tbl : ItemTable) (id : String) (r : ItemRow) : ItemTable :=
  fun k => if k = id then some r else tbl k

/-- Embedding of the import loop of `_refresh_worker` in
`server/routers/admin.py`, over the full (already paginated) upstream item
list: every derived row is insert-or-replaced under its id. -/
def refresh_catalog (items : List UpstreamItem) (tbl : ItemTable) : ItemTable :=
  items.foldl (fun t i => upsertItem t i.id (itemRowOf i)) tbl

/-- The row stored under key `k` by the latest upstream item carrying that
id, if any. -/
def lastRowFor (k : String) : List UpstreamItem → Option ItemRow
  | [] => none
  | i :: is =>
    match lastRowFor k is with
    | some r => some r
    | none => if i.id = k then some (itemRowOf i) else none

/- ------------------------------------------------------------------ -/
/- Window parsing and the time filter (server/routers/stats.py:
   _window_to_sql, top_users, top_items).                             -/
/- ------------------------------------------------------------------ -/

/-- Python `(window or "").lower().strip()` on the character list (ASCII
lowercase and whitespace). -/
def pyLowerStrip (s : String) : List Char :=
  (((s.data.map Char.toLower).dropWhile Char.isWhitespace).reverse.dropWhile
    Char.isWhitespace).reverse

/-- The SQLite unit word `units = {d: days, h: hours, w: weeks, m: months}`
chosen by `_window_to_sql` for a matched unit character. -/
def windowUnitName (u : Char) : String :=
  if u = 'd' then "days"
  else if u = 'h' then "hours"
  else if u = 'w' then "weeks"
  else "months"

/-- The regex `re.fullmatch(r'(\d+)\s*([dhwm])', s)`: one or more digits,
optional whitespace, then a single unit character, consuming the whole
string; returns the digit run and the unit. -/
def matchWindow (cs : List Char) : Option (List Char × Char) :=
  let ds := cs.takeWhile Char.isDigit
  let rest := (cs.dropWhile Char.isDigit).dropWhile Char.isWhitespace
  match ds, rest with
  | [], _ => none
  | _, [u] =>
    if u = 'd' ∨ u = 'h' ∨ u = 'w' ∨ u = 'm' then some (ds, u) else none
  | _, _ => none

/-- Embedding of `_window_to_sql` in `server/routers/stats.py`: the literal
windows "all"/"lifetime"/"ever" produce no modifier (this None return is
the only means the callers have of disabling the time filter); a matched
`<digits><unit>` produces the SQLite modifier string `-<digits> <unitword>`;
anything unparsable defaults to "-30 days". -/
def _window_to_sql (window : String) : Option String :=
  let s := pyLowerStrip window
  if s = "all".data ∨ s = "lifetime".data ∨ s = "ever".data then none
  else
    match matchWindow s with
    | none => some "-30 days"
    | some (ds, u) => some ("-" ++ String.mk ds ++ " " ++ windowUnitName u)

/-- Numeric value of a digit run. -/
def digitsToNat (ds : List Char) : Nat :=
  ds.foldl (fun n c => 10 * n + (c.toNat - 48)) 0

/-- Milliseconds of the fixed-length SQLite datetime modifier units.
SQLite recognises "days", "hours", "minutes" and "seconds" (plus the
calendar units "months" and "years"); it does NOT recognise "weeks", so a
weeks modifier makes `datetime` return NULL — verified against SQLite
3.40, where `datetime(t, '-2 weeks')` is NULL while `datetime(t, '-7 days')`
is a timestamp. -/
def fixedUnitMs (u : String) : Option Int :=
  if u = "days" then some 86400000
  else if u = "hours" then some 3600000
  else if u = "minutes" then some 60000
  else if u = "seconds" then some 1000
  else none

/-- Modelled evaluation of `datetime('now', ?)` to a cutoff timestamp in
milliseconds: a NULL modifier yields NULL, a `-N <fixed unit>` modifier
subtracts the duration from now, and an unrecognised unit — in particular
"weeks" — yields NULL.  The calendar units "months"/"years" are outside
this model (they would shift the calendar rather than subtract a fixed
duration); no theorem in this file evaluates a months or years window. -/
def sqliteCutoffMs (nowMs : Int) (mod : Option String) : Option Int :=
  match mod with
  | none => none
  | some s =>
    match s.data with
    | '-' :: rest =>
      let ds := rest.takeWhile Char.isDigit
      let u := String.mk ((rest.dropWhile Char.isDigit).dropWhile (· = ' '))
      if ds = [] then none
      else
        match fixedUnitMs u with
        | some k => some (nowMs - (digitsToNat ds : Int) * k)
        | none => none
    | _ => none

/-- One row of the `play_event` ledger as `top_users` reads it. -/
structure PlayEvent where
  uid : Option String
  iid : String
  tsMs : Int
  posMs : Option Int
deriving DecidableEq, Repr

/-- The WHERE clause of `top_users`: `emby_user_id IS NOT NULL AND
datetime(event_ts) >= datetime('now', ?)`.  An SQL comparison against a
NULL cutoff is NULL, which WHERE treats as not-true: a NULL cutoff excludes
every row. -/
def passesTopUsersWhere (cutoff : Option Int) (e : PlayEvent) : Bool :=
  e.uid.isSome && (match cutoff with
    | none => false
    | some c => decide (c ≤ e.tsMs))

/-- Insertion step of a stable ascending sort on the event timestamp,
modelling `ORDER BY datetime(event_ts)` inside a partition. -/
def insertAscTs (o : Obs) : List Obs → List Obs
  | [] => [o]
  | x :: xs => if o.tsMs < x.tsMs then o :: x :: xs else x :: insertAscTs o xs

/-- A partition ordered by event timestamp. -/
def sortAscTs (l : List Obs) : List Obs := l.foldr insertAscTs []

/-- The partition of the filtered rows belonging to one (user, item) key,
ordered by timestamp. -/
def partitionEvents (rows : List PlayEvent) (u i : String) : List Obs :=
  sortAscTs ((rows.filter fun e => e.uid == some u && e.iid == i).map
    fun e => ⟨e.tsMs, e.posMs⟩)

/-- The (user, item) partition keys occurring among the filtered rows,
without duplicates (the output order of a SQL GROUP BY is unspecified). -/
def userItemKeys (rows : List PlayEvent) : List (String × String) :=
  (rows.filterMap fun e => e.uid.map fun u => (u, e.iid)).dedup

/-- Milliseconds credited to one user by the `top_users` aggregation: the
sum of the per-pair deltas over every partition of that user. -/
def userCreditedMs (rows : List PlayEvent) (u : String) : Int :=
  (((userItemKeys rows).filter fun k => k.1 == u).map
    (fun k => (partitionDeltas (partitionEvents rows k.1 k.2)).sum)).sum

/-- Embedding of the `top_users` query in `server/routers/stats.py`, up to
presentation (the SQL divides the millisecond sums by 3600000.0 for display
and orders and limits the rows): every user appearing among the rows that
survive the window filter, paired with the credited milliseconds.  The
cutoff is the evaluation of `datetime('now', ?)` at
`_window_to_sql window`. -/
def top_users_ms (nowMs : Int) (ledger : List PlayEvent) (window : String) :
    List (String × Int) :=
  let rows :=
    ledger.filter (passesTopUsersWhere (sqliteCutoffMs nowMs (_window_to_sql window)))
  ((rows.filterMap fun e => e.uid).dedup).map fun u => (u, userCreditedMs rows u)

/-- The two-event ledger of the C2 demonstration: one user whose position
advanced 2000 ms between two samples 2000 ms apart, recorded one day before
now. -/
def c2Ledger : List PlayEvent :=
  [⟨some "u1", "i1", 1000, some 0⟩, ⟨some "u1", "i1", 3000, some 2000⟩]

/- ------------------------------------------------------------------ -/
/- Helper lemmas.                                                     -/
/- ------------------------------------------------------------------ -/

/-- A pair produced by `lagPairs` of a timestamp-ordered list is itself
ordered. -/
theorem lagPairs_ts_le {p : List Obs} {a b : Obs}
    (hs : List.Chain' (fun x y => x.tsMs ≤ y.tsMs) p)
    (hm : (a, b) ∈ lagPairs p) : a.tsMs ≤ b.tsMs := by
  induction p with
  | nil => simp [lagPairs] at hm
  | cons x xs ih =>
    cases xs with
    | nil => simp [lagPairs] at hm
    | cons y ys =>
      rw [List.chain'_cons] at hs
      simp only [lagPairs, List.mem_cons] at hm
      rcases hm with h | h
      · cases h; exact hs.1
      · exact ih hs.2 h

/-- Upserting never removes an existing id from the user table. -/
theorem upsertUser_mem_keys {tbl : UserTable} {id : String} (i n : String)
    (h : id ∈ tbl.map Prod.fst) : id ∈ (upsertUser tbl i n).map Prod.fst := by
  rcases List.mem_map.mp h with ⟨p, hp, hpk⟩
  unfold upsertUser
  by_cases hany : (tbl.any fun q => q.1 == i) = true
  · rw [if_pos hany]
    refine List.mem_map.mpr
      ⟨if p.1 == i then (i, n) else p, List.mem_map.mpr ⟨p, hp, rfl⟩, ?_⟩
    by_cases hc : p.1 = i
    · rw [if_pos (by simpa using hc)]
      exact hc.symm.trans hpk
    · rw [if_neg (by simpa using hc)]
      exact hpk
  · rw [if_neg hany]
    exact List.mem_map.mpr ⟨p, List.mem_append_left _ hp, hpk⟩

/-- The descending insertion sort preserves the number of rows. -/
theorem insertDescTotal_length (r : LifetimeRow) (l : List LifetimeRow) :
    (insertDescTotal r l).length = l.length + 1 := by
  induction l with
  | nil => rfl
  | cons x xs ih =>
    unfold insertDescTotal
    split
    · simp
    · simp [ih]

/-- Sorting preserves the number of rows. -/
theorem sortDescTotal_length (rows : List LifetimeRow) :
    (sortDescTotal rows).length = rows.length := by
  induction rows with
  | nil => rfl
  | cons x xs ih =>
    show (insertDescTotal x (sortDescTotal xs)).length = xs.length + 1
    rw [insertDescTotal_length, ih]

/-- Reading a replicated list inside its bounds gives the replicated value. -/
theorem getD_replicate_lt {α : Type} (a d : α) {n j : Nat} (h : j < n) :
    (List.replicate n a).getD j d = a := by
  induction n generalizing j with
  | zero => omega
  | succ m ih =>
    cases j with
    | zero => rfl
    | succ k => exact ih (by omega)

/- ------------------------------------------------------------------ -/
/- Theorems for the claims.                                           -/
/- ------------------------------------------------------------------ -/

/-- C1: within a timestamp-ordered partition, the delta credited for every
consecutive pair (prev, cur) by the shared aggregation expression `d_ms`
(used by the daily-usage, top-users and top-items queries) equals
`max(0, min(cur.pos - prev.pos, 5000, wallGapMs))`; consequently it lies in
`[0, min(5000, wallGapMs)]` and a rewind contributes 0. -/
theorem delta_formula_and_bounds (p : List Obs) (prev cur : Obs)
    (hsorted : List.Chain' (fun x y => x.tsMs ≤ y.tsMs) p)
    (hmem : (prev, cur) ∈ lagPairs p)
    (a b : Int) (hp : prev.posMs = some a) (hc : cur.posMs = some b) :
    d_ms prev cur = specDelta a b prev.tsMs cur.tsMs
    ∧ 0 ≤ d_ms prev cur
    ∧ d_ms prev cur ≤ min 5000 (cur.tsMs - prev.tsMs)
    ∧ (b < a → d_ms prev cur = 0) := by
  have hts : prev.tsMs ≤ cur.tsMs := lagPairs_ts_le hsorted hmem
  have hr : rawDelta prev.posMs cur.posMs = b - a := by rw [hp, hc]; rfl
  unfold d_ms specDelta cap_ms
  rw [hr]
  refine ⟨rfl, ?_, ?_, ?_⟩ <;> omega

/-- Witness for C1 at the concrete partition of the specification scenario:
two samples 2000 ms apart whose position advanced by 2000 ms. -/
theorem delta_formula_and_bounds_witness :
    d_ms ⟨0, some 0⟩ ⟨2000, some 2000⟩ = specDelta 0 2000 0 2000
    ∧ 0 ≤ d_ms ⟨0, some 0⟩ ⟨2000, some 2000⟩
    ∧ d_ms ⟨0, some 0⟩ ⟨2000, some 2000⟩ ≤ min 5000 (2000 - 0)
    ∧ ((2000 : Int) < 0 → d_ms ⟨0, some 0⟩ ⟨2000, some 2000⟩ = 0) :=
  delta_formula_and_bounds [⟨0, some 0⟩, ⟨2000, some 2000⟩] ⟨0, some 0⟩ ⟨2000, some 2000⟩
    (List.chain'_pair.mpr (by decide)) (by decide) 0 2000 rfl rfl

/-- C3 counterexample: with one local user and an empty upstream list the
sync leaves the directory untouched — the local user absent upstream is not
deleted and the directory is not cleared, contrary to the claim. -/
theorem sync_users_no_prune_cex :
    sync_users_from_emby [("u1", "Alice")] [] = [("u1", "Alice")]
    ∧ sync_users_from_emby [("u1", "Alice")] [] ≠ [] := by decide

/-- C3 amended: the sync upserts every upstream user by id and never deletes
a local user — every id present before the sync is still present after it —
and an empty upstream list leaves the local directory exactly unchanged. -/
theorem sync_users_upsert_only (loc : UserTable) (upstream : List (String × String)) :
    (∀ id, id ∈ loc.map Prod.fst →
      id ∈ (sync_users_from_emby loc upstream).map Prod.fst)
    ∧ sync_users_from_emby loc [] = loc := by
  refine ⟨?_, rfl⟩
  intro id hid
  induction upstream generalizing loc with
  | nil => exact hid
  | cons u us ih =>
    exact ih (upsertUser loc u.1 u.2) (upsertUser_mem_keys u.1 u.2 hid)

/-- Witness for the amended C3 at a concrete directory and upstream list. -/
theorem sync_users_upsert_only_witness :
    "u1" ∈ (sync_users_from_emby [("u1", "Alice")] [("u2", "Bob")]).map Prod.fst
    ∧ sync_users_from_emby [("u1", "Alice")] [] = [("u1", "Alice")] :=
  ⟨(sync_users_upsert_only [("u1", "Alice")] [("u2", "Bob")]).1 "u1" (by decide),
   (sync_users_upsert_only [("u1", "Alice")] []).2⟩

/-- C5 counterexample: a full-wipe start request arriving while the running
flag is set still creates a second worker, and its response is the plain
started body, not the in-progress state the claim promises. -/
theorem refresh_full_ignores_running_cex :
    (admin_refresh_full ([("i1", 0)] : List (String × Nat))
      ⟨true, 3, 600, 1000, none⟩).2.2 = true
    ∧ (admin_refresh_full ([("i1", 0)] : List (String × Nat))
      ⟨true, 3, 600, 1000, none⟩).2.1 ≠ .busy 600 1000 3 := by decide

/-- C5 amended: only the plain refresh endpoint is single-flight — while the
running flag is set it returns the current progress and starts no worker,
and otherwise it starts one — whereas the full-wipe variant wipes the
catalog and starts a worker unconditionally, even while a job is running. -/
theorem refresh_single_flight (st : RefreshState) :
    (st.running = true → admin_refresh st = (.busy st.imported st.total st.page, false))
    ∧ (st.running = false → admin_refresh st = (.started false, true))
    ∧ ∀ catalog : List (String × Nat),
        admin_refresh_full catalog st = ([], .started true, true) := by
  refine ⟨fun h => ?_, fun h => ?_, fun _ => rfl⟩ <;> simp [admin_refresh, h]

/-- Witness for the amended C5 at a busy state and at an idle state. -/
theorem refresh_single_flight_witness :
    admin_refresh ⟨true, 3, 600, 1000, none⟩ = (.busy 600 1000 3, false)
    ∧ admin_refresh ⟨false, 0, 0, 0, none⟩ = (.started false, true) :=
  ⟨(refresh_single_flight ⟨true, 3, 600, 1000, none⟩).1 rfl,
   (refresh_single_flight ⟨false, 0, 0, 0, none⟩).2.1 rfl⟩

/-- C6: a broadcast enqueues the snapshot exactly for the subscribers whose
queues hold fewer than 10 entries; a queue already holding 10 is left
unchanged (the snapshot is dropped for that subscriber only, the map acts
pointwise), and no queue bounded by 10 ever exceeds 10 after a broadcast. -/
theorem publish_bounded (snapshot : String) (subs : List (List String)) (i : Nat) :
    ((subs.getD i []).length = 10 →
      (publish_now snapshot subs).getD i [] = subs.getD i [])
    ∧ ((subs.getD i []).length < 10 → i < subs.length →
      (publish_now snapshot subs).getD i [] = subs.getD i [] ++ [snapshot])
    ∧ ((subs.getD i []).length ≤ 10 →
      ((publish_now snapshot subs).getD i []).length ≤ 10) := by
  simp only [publish_now, List.getD_eq_getElem?_getD, List.getElem?_map]
  cases hq : subs[i]? with
  | none =>
    have hge : subs.length ≤ i := by
      by_contra hlt
      push_neg at hlt
      rw [List.getElem?_eq_getElem hlt] at hq
      cases hq
    exact ⟨fun _ => rfl, fun _ hlt => absurd hlt (by omega), fun _ => by simp⟩
  | some q =>
    simp only [Option.map_some', Option.getD_some]
    by_cases hl : q.length < 10
    · exact ⟨fun h => absurd h (by omega), fun _ _ => by rw [if_pos hl],
        fun _ => by
          rw [if_pos hl]
          simp only [List.length_append, List.length_singleton]
          omega⟩
    · exact ⟨fun _ => by rw [if_neg hl], fun h _ => absurd h (by omega),
        fun h => by rw [if_neg hl]; exact h⟩

/-- Witness for C6: a full queue of 10 snapshots is unchanged while a
2-element queue in the same broadcast receives the snapshot, and the full
queue stays within the bound. -/
theorem publish_bounded_witness :
    (publish_now "x" [List.replicate 10 "s", ["a"]]).getD 0 [] = List.replicate 10 "s"
    ∧ (publish_now "x" [List.replicate 10 "s", ["a"]]).getD 1 [] = ["a"] ++ ["x"]
    ∧ ((publish_now "x" [List.replicate 10 "s", ["a"]]).getD 0 []).length ≤ 10 :=
  ⟨(publish_bounded "x" [List.replicate 10 "s", ["a"]] 0).1 (by decide),
   (publish_bounded "x" [List.replicate 10 "s", ["a"]] 1).2.1 (by decide) (by decide),
   (publish_bounded "x" [List.replicate 10 "s", ["a"]] 0).2.2 (by decide)⟩

/-- C8 counterexample: a negative stored height falls in the SD bucket in
the code, while the claim map places every height below 1 in Unknown. -/
theorem quality_bucket_negative_cex :
    qualityBucket (some (-1)) = "SD"
    ∧ claimBucket (some (-1)) = "Unknown"
    ∧ qualityBucket (some (-1)) ≠ claimBucket (some (-1)) := by decide

/-- C8 amended: the code maps NULL and exactly 0 to Unknown and every other
height below 720 — negatives included — to SD; the 720p/1080p/4K ranges are
as claimed, and the three scenario inputs land in the claimed buckets. -/
theorem quality_bucket_amended (h : Option Int) :
    qualityBucket h = amendedBucket h
    ∧ qualityBucket (some 1080) = "1080p"
    ∧ qualityBucket none = "Unknown"
    ∧ qualityBucket (some 4000) = "4K" := by
  refine ⟨?_, by decide, rfl, by decide⟩
  cases h with
  | none => rfl
  | some v =>
    simp only [qualityBucket, amendedBucket]
    split_ifs <;> first | rfl | omega

/-- C4: on any tick, a session writes a ledger row only when the dedup cache
holds no entry for its `(userId, itemId)` partition or holds a position
different from the current one; when the cached position equals the current
position no ledger write occurs for that session and the cache is left
unchanged. -/
theorem collect_dedup (cache : DedupCache) (s : Session) :
    ((collectSession cache s).2 = true →
      ∃ u i p, s.userId = some u ∧ s.itemId = some i ∧ sessionPosMs s = some p
        ∧ cacheLookup cache (u, i) ≠ some p)
    ∧ (∀ u i p, s.userId = some u → s.itemId = some i → sessionPosMs s = some p →
        cacheLookup cache (u, i) = some p → collectSession cache s = (cache, false)) := by
  constructor
  · intro hw
    rcases hu : s.userId with _ | u
    · simp only [collectSession, hu] at hw
      exact absurd hw (by decide)
    rcases hi : s.itemId with _ | i
    · simp only [collectSession, hu, hi] at hw
      exact absurd hw (by decide)
    rcases hp : sessionPosMs s with _ | p
    · simp only [collectSession, hu, hi, hp] at hw
      exact absurd hw (by decide)
    simp only [collectSession, hu, hi, hp] at hw
    by_cases hg : u ≠ "" ∧ i ≠ ""
    · rw [if_pos hg] at hw
      by_cases hl : cacheLookup cache (u, i) ≠ some p
      · exact ⟨u, i, p, rfl, rfl, rfl, hl⟩
      · rw [if_neg hl] at hw
        cases hw
    · rw [if_neg hg] at hw
      cases hw
  · intro u i p hu hi hp hl
    simp only [collectSession, hu, hi, hp]
    by_cases hg : u ≠ "" ∧ i ≠ ""
    · rw [if_pos hg, if_neg (by simp [hl])]
    · rw [if_neg hg]

/-- Witness for C4: a cached position equal to the current one (50000 ticks
= 5 ms, already cached) produces no ledger write and leaves the cache
unchanged. -/
theorem collect_dedup_witness :
    collectSession [(("u1", "i1"), 5)] ⟨some "u1", some "i1", some 50000⟩
      = ([(("u1", "i1"), 5)], false) :=
  (collect_dedup [(("u1", "i1"), 5)] ⟨some "u1", some "i1", some 50000⟩).2
    "u1" "i1" 5 rfl rfl (by decide) (by decide)

/-- C7: the backfill credits each user with the specification formula — the
sum over played items of `(runtimeTicks / 10000) * max(playCount, 1)` with
10000 ticks per millisecond and a missing or zero playCount counting as 1 —
whenever the upstream fields are the non-negative counts the backend emits,
and every run deletes the whole `lifetime_watch` table before reinserting,
so the result never depends on the previous aggregate. -/
theorem backfill_formula (old : LifetimeTable) (users : List UpstreamUser)
    (items : List HistoryItem)
    (hnn : ∀ it ∈ items, 0 ≤ it.runTimeTicks.getD 0 ∧ 0 ≤ it.playCount.getD 0) :
    userLifetimeMs items = specLifetimeMs items
    ∧ backfill_lifetime_watch old users = backfill_lifetime_watch [] users := by
  constructor
  · unfold userLifetimeMs specLifetimeMs
    congr 1
    apply List.map_congr_left
    intro it hit
    rcases hnn it hit with ⟨ht, hc⟩
    unfold itemWatchMs
    rcases hpc : it.playCount with _ | c
    · simp only [hpc, Option.getD_none, Option.getD_some]
      by_cases h0 : 0 < it.runTimeTicks.getD 0
      · rw [if_pos ⟨h0, by omega⟩]
        norm_num
      · rw [if_neg (by omega)]
        have : it.runTimeTicks.getD 0 = 0 := by omega
        rw [this]
        norm_num
    · rw [hpc] at hc
      simp only [hpc, Option.getD_some] at *
      by_cases hcz : c = 0
      · subst hcz
        by_cases h0 : 0 < it.runTimeTicks.getD 0
        · rw [if_pos (by norm_num; omega)]
          norm_num
        · rw [if_neg (by omega)]
          have : it.runTimeTicks.getD 0 = 0 := by omega
          rw [this]
          norm_num
      · have hc1 : 1 ≤ c := by omega
        have hmax : max c 1 = c := by omega
        rw [if_neg hcz, hmax]
        by_cases h0 : 0 < it.runTimeTicks.getD 0
        · rw [if_pos ⟨h0, by omega⟩]
        · rw [if_neg (by omega)]
          have : it.runTimeTicks.getD 0 = 0 := by omega
          rw [this]
          norm_num
  · rfl

/-- Witness for C7 at a concrete history: a 100-minute item played twice, a
3-second item with no recorded playCount and a 2-second item with playCount
0, over an arbitrary previous aggregate. -/
theorem backfill_formula_witness :
    userLifetimeMs
        [⟨some 60000000000, some 2⟩, ⟨some 30000000, none⟩, ⟨some 20000000, some 0⟩]
      = specLifetimeMs
        [⟨some 60000000000, some 2⟩, ⟨some 30000000, none⟩, ⟨some 20000000, some 0⟩]
    ∧ backfill_lifetime_watch [("stale", 1)] [⟨"u1", []⟩]
      = backfill_lifetime_watch [] [⟨"u1", []⟩] :=
  backfill_formula [("stale", 1)] [⟨"u1", []⟩]
    [⟨some 60000000000, some 2⟩, ⟨some 30000000, none⟩, ⟨some 20000000, some 0⟩]
    (by decide)

/-- C10: the active-users query always returns exactly `limit` entries — at
most `limit` formatted rows taken from the aggregate ordered by `total_ms`
descending, padded with Unknown/zero entries — and every index at or beyond
the number of available rows holds the Unknown/zero padding entry. -/
theorem active_users_exact_limit (lifetime : List LifetimeRow) (limit : Nat) :
    (_get_active_users lifetime limit).length = limit
    ∧ (∀ k, min lifetime.length limit ≤ k → k < limit →
        (_get_active_users lifetime limit).getD k ⟨"", 0, 0, 0⟩
          = ⟨"Unknown", 0, 0, 0⟩) := by
  have htake : ((sortDescTotal lifetime).take limit).length = min lifetime.length limit := by
    rw [List.length_take, sortDescTotal_length]
    omega
  have hout : (((sortDescTotal lifetime).take limit).map formatEntry).length
      = min lifetime.length limit := by
    rw [List.length_map, htake]
  constructor
  · simp only [_get_active_users, _format_active_users]
    rw [List.length_append, List.length_replicate, hout]
    omega
  · intro k hk1 hk2
    simp only [_get_active_users, _format_active_users]
    rw [List.getD_append_right _ _ _ _ (le_of_eq_of_le hout hk1)]
    rw [hout]
    exact getD_replicate_lt _ _ (by omega)

/-- Witness for C10: a single-row aggregate of 1 day, 1 hour and 1 minute of
watch time queried with limit 3 yields exactly three entries, the last of
which is the Unknown/zero padding entry. -/
theorem active_users_exact_limit_witness :
    (_get_active_users [⟨"alice", some 90060000⟩] 3).length = 3
    ∧ (_get_active_users [⟨"alice", some 90060000⟩] 3).getD 2 ⟨"", 0, 0, 0⟩
      = ⟨"Unknown", 0, 0, 0⟩ :=
  ⟨(active_users_exact_limit [⟨"alice", some 90060000⟩] 3).1,
   (active_users_exact_limit [⟨"alice", some 90060000⟩] 3).2 2 (by decide) (by decide)⟩

/-- Looking a key up after a catalog import: the latest upstream item
carrying that id wins, and keys carried by no upstream item keep their old
row. -/
theorem refresh_catalog_lookup (items : List UpstreamItem) (tbl : ItemTable)
    (k : String) :
    refresh_catalog items tbl k
      = match lastRowFor k items with
        | some r => some r
        | none => tbl k := by
  induction items generalizing tbl with
  | nil => rfl
  | cons i is ih =>
    show refresh_catalog is (upsertItem tbl i.id (itemRowOf i)) k = _
    rw [ih]
    cases hlast : lastRowFor k is with
    | some r => simp [lastRowFor, hlast]
    | none =>
      simp only [lastRowFor, hlast, upsertItem]
      by_cases hk : i.id = k
      · rw [if_pos hk.symm, if_pos hk]
      · rw [if_neg (fun hh => hk hh.symm), if_neg hk]

/-- C9: catalog sync is idempotent — running the import twice over the same
upstream item list leaves every key of the `library_item` map exactly as
after the first run (each item is upserted under its primary-key id, so
there are no duplicate rows and no changed values on the second run). -/
theorem catalog_sync_idempotent (items : List UpstreamItem) (tbl : ItemTable)
    (k : String) :
    refresh_catalog items (refresh_catalog items tbl) k
      = refresh_catalog items tbl k := by
  rw [refresh_catalog_lookup, refresh_catalog_lookup]
  cases hlast : lastRowFor k items with
  | some r => rfl
  | none => rfl

/-- C2 (demonstration of the code bug): `_window_to_sql` maps "7d" and
"bogus" as claimed and returns no modifier for "all" — intended to disable
the time filter — but `top_users` and `top_items` always keep the SQL
filter `datetime(event_ts) >= datetime('now', ?)`, so the NULL cutoff
excludes every row: under window "all" the nonempty ledger yields no users
at all, while the same ledger under "30d" credits u1 with 2000 ms.  A "2w"
window emits "-2 weeks", which is not a recognised SQLite modifier, and
likewise counts nothing instead of applying a 14-day cutoff. -/
theorem window_all_counts_nothing :
    _window_to_sql "all" = none
    ∧ _window_to_sql "lifetime" = none
    ∧ _window_to_sql "ever" = none
    ∧ _window_to_sql "7d" = some "-7 days"
    ∧ _window_to_sql "2w" = some "-2 weeks"
    ∧ _window_to_sql "bogus" = some "-30 days"
    ∧ c2Ledger ≠ []
    ∧ top_users_ms 86400000 c2Ledger "30d" = [("u1", 2000)]
    ∧ top_users_ms 86400000 c2Ledger "all" = []
    ∧ top_users_ms 86400000 c2Ledger "2w" = [] := by decide

end EmbyAnalytics
